import Mathlib

/-!
Verification of the 3dGolfPhysicsModel physics pipeline.

This file gives a shallow embedding of the physics core in
`src/golf_physics` (impact_model.py, flight_model.py, bounce_roll.py,
complete_golf_sim.py), with machine floats idealized as real numbers,
and proves properties of the embedded code.  Diagnostic printing in the
source is a side effect with no influence on the returned values and is
dropped from the embedding.
-/

/-- Ball state tuple `(x, y, z, vx, vy, vz, backspin_rad_s, sidespin_rad_s)`
as recorded by both the flight and the ground integrator. -/
structure BallState where
  x : ℝ
  y : ℝ
  z : ℝ
  vx : ℝ
  vy : ℝ
  vz : ℝ
  bs : ℝ
  ss : ℝ

/-- `rpm_to_rad_s` from impact_model.py / flight_model.py / complete_golf_sim.py. -/
noncomputable def rpm_to_rad_s (rpm : ℝ) : ℝ := rpm * (2 * Real.pi) / 60

/-- `rad_s_to_rpm` from impact_model.py / flight_model.py / complete_golf_sim.py. -/
noncomputable def rad_s_to_rpm (rad_s : ℝ) : ℝ := rad_s * 60 / (2 * Real.pi)

/-- `math.radians`: degree-to-radian conversion used by flight_model.py. -/
noncomputable def radians (d : ℝ) : ℝ := d * Real.pi / 180

/-- The dict returned by `compute_impact` in impact_model.py. -/
structure ImpactResult where
  launch_speed : ℝ
  launch_angle_vert : ℝ
  launch_angle_horiz : ℝ
  backspin_rpm : ℝ
  sidespin_rpm : ℝ

/-- `compute_impact` from impact_model.py (lines 13-85). -/
noncomputable def compute_impact (club_speed_mps club_loft_deg club_face_angle_deg
    horizontal_offset_cm vertical_offset_cm ball_compression_rating base_cor
    base_smash_factor toe_gear_rpm_cm vert_gear_rpm_cm : ℝ) : ImpactResult :=
  let launch_speed := club_speed_mps * base_smash_factor
  let launch_angle_vert := club_loft_deg
  let launch_angle_horiz := club_face_angle_deg
  let loft_factor := club_loft_deg / 10.0
  let backspin0 := club_speed_mps * vert_gear_rpm_cm * loft_factor / ball_compression_rating
  let sidespin0 := club_speed_mps * toe_gear_rpm_cm * loft_factor / ball_compression_rating
  let backspin_adjust_factor := 1.0
  let sidespin_adjust_factor := 0.5
  let sidespin1 :=
    if club_face_angle_deg = 0 ∧ horizontal_offset_cm = 0 then 0.0
    else sidespin0 + (club_face_angle_deg / 10.0) * 200.0
          + horizontal_offset_cm * sidespin_adjust_factor
  let backspin1 := backspin0 + vertical_offset_cm * backspin_adjust_factor
  let maxBackspinRpm : ℝ := 6000
  let maxSidespinRpm : ℝ := 3000
  ⟨launch_speed, launch_angle_vert, launch_angle_horiz,
   min backspin1 maxBackspinRpm,
   max (min sidespin1 maxSidespinRpm) (-maxSidespinRpm)⟩

/-- The per-step constants of `simulate_flight` in flight_model.py. -/
structure FlightEnv where
  wind_vx : ℝ
  wind_vy : ℝ
  ball_mass : ℝ
  ball_radius : ℝ
  drag_base : ℝ
  lift_base : ℝ
  spin_decay_rate : ℝ
  gravity : ℝ
  time_step : ℝ

/-- One iteration of the flight loop in `simulate_flight`
(flight_model.py lines 93-138): drag, Magnus lift, gravity, then the
Euler position update and the multiplicative spin decay. -/
noncomputable def flightStep (c : FlightEnv) (s : BallState) : BallState :=
  let rel_vx := s.vx - c.wind_vx
  let rel_vy := s.vy - c.wind_vy
  let rel_vz := s.vz
  let speed0 := Real.sqrt (rel_vx ^ 2 + rel_vy ^ 2 + rel_vz ^ 2)
  let speed := if speed0 = 0 then 1e-6 else speed0
  let drag := c.drag_base * (1 + 0.1 * (s.bs / 1000))
  let lift := c.lift_base * (s.bs / 1000)
  let drag_force := 0.5 * drag * speed ^ 2 * Real.pi * c.ball_radius ^ 2
  let ax_drag := -drag_force * rel_vx / (speed * c.ball_mass)
  let ay_drag := -drag_force * rel_vy / (speed * c.ball_mass)
  let az_drag := -drag_force * rel_vz / (speed * c.ball_mass)
  let lift_force := 0.5 * lift * speed ^ 2 * Real.pi * c.ball_radius ^ 2
  let az_lift := lift_force / c.ball_mass
  let az_gravity := -c.gravity
  let vx1 := s.vx + ax_drag * c.time_step
  let vy1 := s.vy + ay_drag * c.time_step
  let vz1 := s.vz + (az_drag + az_lift + az_gravity) * c.time_step
  ⟨s.x + vx1 * c.time_step, s.y + vy1 * c.time_step, s.z + vz1 * c.time_step,
   vx1, vy1, vz1,
   s.bs * (1 - c.spin_decay_rate * c.time_step),
   s.ss * (1 - c.spin_decay_rate * c.time_step)⟩

/-- The flight loop of `simulate_flight` (flight_model.py lines 85-134):
each iteration records the current state, breaks if the recorded state is
below ground (`z < 0`), and otherwise advances by `flightStep`.  The fuel
argument is the residual step budget out of `max_steps`. -/
noncomputable def flightLoop (c : FlightEnv) : ℕ → BallState → List BallState
  | 0, _ => []
  | n + 1, s =>
    s :: (if s.z < 0 then [] else flightLoop c n (flightStep c s))

/-- `simulate_flight` from flight_model.py (lines 13-151).  The
`temperature_c`, `humidity` and `elevation_m` arguments are accepted but
unused, exactly as in the source. -/
noncomputable def simulate_flight (launch_speed launch_angle_vert launch_angle_horiz
    backspin_rpm sidespin_rpm wind_speed_mps wind_dir_deg temperature_c humidity
    elevation_m ball_mass ball_radius drag_base lift_base spin_decay_rate gravity
    time_step : ℝ) (max_steps : ℕ) : List BallState :=
  let lav := radians launch_angle_vert
  let lah := radians launch_angle_horiz
  let wdr := radians wind_dir_deg
  let vx := launch_speed * Real.cos lav * Real.cos lah
  let vy := launch_speed * Real.cos lav * Real.sin lah
  let vz := launch_speed * Real.sin lav
  let wind_vx := wind_speed_mps * Real.cos wdr
  let wind_vy := wind_speed_mps * Real.sin wdr
  flightLoop ⟨wind_vx, wind_vy, ball_mass, ball_radius, drag_base, lift_base,
      spin_decay_rate, gravity, time_step⟩ max_steps
    ⟨0, 0, 0, vx, vy, vz, rpm_to_rad_s backspin_rpm, rpm_to_rad_s sidespin_rpm⟩

/-- Python `str.lower()` (ASCII case folding applied to each character),
as used on the `surface_type` and `club_type` strings. -/
def strLower (s : String) : String := ⟨s.data.map Char.toLower⟩

/-- The surface lookup table of `simulate_bounce_and_roll`
(bounce_roll.py lines 38-44): `dict.get` on the lowercased surface name,
with fairway's pair as the default.  Returns `(friction, restitution)`. -/
noncomputable def surfaceProps (surface_type : String) : ℝ × ℝ :=
  if strLower surface_type = "fairway" then (0.35, 0.40)
  else if strLower surface_type = "rough" then (0.30, 0.35)
  else if strLower surface_type = "green" then (0.45, 0.30)
  else (0.35, 0.40)

/-- The per-step constants of `simulate_bounce_and_roll` in bounce_roll.py,
with the surface-derived friction and restitution already looked up. -/
structure GroundEnv where
  ball_mass : ℝ
  ball_radius : ℝ
  gravity : ℝ
  spin_friction_factor : ℝ
  time_step : ℝ
  friction : ℝ
  restitution : ℝ

/-- One non-terminating iteration of the ground loop in
`simulate_bounce_and_roll` (bounce_roll.py lines 56-156): bounce if on the
ground with `|vz| > 0.1`; otherwise slide or roll; otherwise (airborne
mid-bounce) apply gravity; position updates exactly as in the source
(`continue` in the slide and roll branches skips the shared update). -/
noncomputable def groundStep (c : GroundEnv) (s : BallState) : BallState :=
  let speed_h := Real.sqrt (s.vx ^ 2 + s.vy ^ 2)
  if s.z ≤ 0 then
    if 0.1 < |s.vz| then
      let vz1 := -s.vz * c.restitution
      let reduction_factor := Real.sqrt (1 - 0.3)
      let vx1 := s.vx * reduction_factor * (1 - 0.05)
      let vy1 := s.vy * reduction_factor * (1 - 0.05)
      let sdg := c.spin_friction_factor * c.time_step
      ⟨s.x + vx1 * c.time_step, s.y + vy1 * c.time_step, s.z + vz1 * c.time_step,
       vx1, vy1, vz1, s.bs * (1 - sdg), s.ss * (1 - sdg)⟩
    else
      let rotational_speed := s.bs * c.ball_radius
      if rotational_speed + 0.1 < speed_h then
        let sliding_friction := c.friction * c.gravity
        let vx1 := s.vx + (-sliding_friction * (s.vx / speed_h)) * c.time_step
        let vy1 := s.vy + (-sliding_friction * (s.vy / speed_h)) * c.time_step
        let sd := c.spin_friction_factor * c.time_step
        ⟨s.x + vx1 * c.time_step, s.y + vy1 * c.time_step, 0,
         vx1, vy1, s.vz, s.bs * (1 - sd), s.ss * (1 - sd)⟩
      else
        let rolling_resistance := c.friction * c.ball_mass * c.gravity * 1.2
        let v2 : ℝ × ℝ :=
          if 1e-9 < speed_h then
            let dir_x := s.vx / speed_h
            let dir_y := s.vy / speed_h
            let vx1 := s.vx + (-rolling_resistance * dir_x / c.ball_mass) * c.time_step
            let vy1 := s.vy + (-rolling_resistance * dir_y / c.ball_mass) * c.time_step
            (if vx1 * dir_x < 0 then 0 else vx1, if vy1 * dir_y < 0 then 0 else vy1)
          else (0, 0)
        let sd := c.spin_friction_factor * c.time_step
        ⟨s.x + v2.1 * c.time_step, s.y + v2.2 * c.time_step, 0,
         v2.1, v2.2, 0, s.bs * (1 - sd), s.ss * (1 - sd)⟩
  else
    let vz1 := s.vz - c.gravity * c.time_step
    ⟨s.x + s.vx * c.time_step, s.y + s.vy * c.time_step, s.z + vz1 * c.time_step,
     s.vx, s.vy, vz1, s.bs, s.ss⟩

/-- The ground loop of `simulate_bounce_and_roll` (bounce_roll.py lines
48-158): each iteration records the current state, breaks when both the
horizontal speed and `|vz|` are below 0.05, and otherwise advances by
`groundStep`. -/
noncomputable def groundLoop (c : GroundEnv) : ℕ → BallState → List BallState
  | 0, _ => []
  | n + 1, s =>
    s :: (if Real.sqrt (s.vx ^ 2 + s.vy ^ 2) < 0.05 ∧ |s.vz| < 0.05 then []
          else groundLoop c n (groundStep c s))

/-- `simulate_bounce_and_roll` from bounce_roll.py (lines 3-158).  The
`ground_restitution` and `ground_friction` arguments are accepted but
unused (the surface table supplies both coefficients), as in the source. -/
noncomputable def simulate_bounce_and_roll (last_flight_state : BallState)
    (ball_mass ball_radius gravity ground_restitution : ℝ) (surface_type : String)
    (ground_friction spin_friction_factor time_step : ℝ) (max_steps : ℕ) :
    List BallState :=
  let props := surfaceProps surface_type
  groundLoop ⟨ball_mass, ball_radius, gravity, spin_friction_factor, time_step,
    props.1, props.2⟩ max_steps last_flight_state

/-- `METERS_TO_YARDS` from complete_golf_sim.py. -/
noncomputable def METERS_TO_YARDS : ℝ := 1.09361

/-- The instance attributes of `CompleteGolfSim` set in `__init__`
(complete_golf_sim.py lines 25-52), i.e. the mutable object state. -/
structure SimState where
  ball_mass : ℝ
  ball_radius : ℝ
  gravity : ℝ
  ball_compression_rating : ℝ
  base_cor : ℝ
  base_smash_factor : ℝ
  vert_gear_rpm_cm : ℝ
  toe_gear_rpm_cm : ℝ
  drag_base : ℝ
  lift_base : ℝ
  spin_decay_rate : ℝ
  flight_time_step : ℝ
  flight_max_steps : ℕ
  ground_restitution : ℝ
  ground_friction : ℝ
  spin_friction_factor : ℝ
  roll_time_step : ℝ
  roll_max_steps : ℕ

/-- The state of a freshly constructed `CompleteGolfSim()`. -/
noncomputable def simInit : SimState :=
  ⟨0.04593, 0.02135, 9.81, 1.0, 0.83, 1.5, 80.0, 120.0, 0.2, 0.3, 0.000005, 0.01,
   1000, 0.40, 0.35, 0.001, 0.01, 2000⟩

/-- `CompleteGolfSim.set_gear_ratios` (complete_golf_sim.py lines 54-71):
mutates the two gear-ratio fields as a function of the club type, with the
iron values as the default for unknown club types. -/
noncomputable def set_gear_ratios (sim : SimState) (club_type : String) : SimState :=
  let ct := strLower club_type
  if ct = "driver" then
    { sim with vert_gear_rpm_cm := 60.0, toe_gear_rpm_cm := 80.0 }
  else if ct = "iron" then
    { sim with vert_gear_rpm_cm := 80.0, toe_gear_rpm_cm := 120.0 }
  else
    { sim with vert_gear_rpm_cm := 80.0, toe_gear_rpm_cm := 120.0 }

/-- The argument list of `CompleteGolfSim.simulate_shot`. -/
structure ShotParams where
  club_speed_mps : ℝ
  club_loft_deg : ℝ
  club_face_angle_deg : ℝ
  horizontal_offset_cm : ℝ
  vertical_offset_cm : ℝ
  wind_speed_mps : ℝ
  wind_dir_deg : ℝ
  temperature_c : ℝ
  humidity : ℝ
  elevation_m : ℝ
  surface_type : String
  club_type : String

/-- The dict returned by `CompleteGolfSim.simulate_shot`. -/
structure ShotResult where
  impact_result : ImpactResult
  flight_path_yards : List BallState
  roll_path_yards : List BallState
  final_position_yards : ℝ × ℝ × ℝ
  carry_2d_yards : ℝ
  roll_2d_yards : ℝ
  total_2d_yards : ℝ
  final_spin : ℝ × ℝ

/-- Python `path[-1]`, the last recorded state of a nonempty trajectory;
this is the state `CompleteGolfSim.simulate_shot` (line 149) hands from
the flight integrator to `simulate_bounce_and_roll`. -/
noncomputable def flightHandoff (l : List BallState) : BallState :=
  l.getLastD ⟨0, 0, 0, 0, 0, 0, 0, 0⟩

/-- The meter-to-yard conversion applied to each trajectory state
(complete_golf_sim.py lines 163-189). -/
noncomputable def yardsState (s : BallState) : BallState :=
  ⟨s.x * METERS_TO_YARDS, s.y * METERS_TO_YARDS, s.z * METERS_TO_YARDS,
   s.vx * METERS_TO_YARDS, s.vy * METERS_TO_YARDS, s.vz * METERS_TO_YARDS,
   s.bs, s.ss⟩

/-- `CompleteGolfSim.simulate_shot` (complete_golf_sim.py lines 73-225).
Returns the post-call object state (the method mutates `self` only through
`set_gear_ratios`) together with the result dict. -/
noncomputable def simulate_shot (sim : SimState) (p : ShotParams) :
    SimState × ShotResult :=
  let simg := set_gear_ratios sim p.club_type
  let impact := compute_impact p.club_speed_mps p.club_loft_deg p.club_face_angle_deg
    p.horizontal_offset_cm p.vertical_offset_cm simg.ball_compression_rating
    simg.base_cor simg.base_smash_factor simg.toe_gear_rpm_cm simg.vert_gear_rpm_cm
  let flight_path_m := simulate_flight impact.launch_speed impact.launch_angle_vert
    impact.launch_angle_horiz impact.backspin_rpm impact.sidespin_rpm
    p.wind_speed_mps p.wind_dir_deg p.temperature_c p.humidity p.elevation_m
    simg.ball_mass simg.ball_radius simg.drag_base simg.lift_base
    simg.spin_decay_rate simg.gravity simg.flight_time_step simg.flight_max_steps
  if flight_path_m.isEmpty then
    (simg, ⟨impact, [], [], (0, 0, 0), 0.0, 0.0, 0.0, (0, 0)⟩)
  else
    let last_flight := flightHandoff flight_path_m
    let roll_path_m := simulate_bounce_and_roll last_flight simg.ball_mass
      simg.ball_radius simg.gravity simg.ground_restitution p.surface_type
      simg.ground_friction simg.spin_friction_factor simg.roll_time_step
      simg.roll_max_steps
    let flight_path_yards := flight_path_m.map yardsState
    let roll_path_yards := roll_path_m.map yardsState
    let final_state := if roll_path_m.isEmpty then last_flight
                       else flightHandoff roll_path_m
    let final_position_yards := (final_state.x * METERS_TO_YARDS,
      final_state.y * METERS_TO_YARDS, final_state.z * METERS_TO_YARDS)
    let carry_2d_yards := Real.sqrt ((last_flight.x * METERS_TO_YARDS) ^ 2 +
      (last_flight.y * METERS_TO_YARDS) ^ 2)
    let total_2d_yards := if roll_path_m.isEmpty then carry_2d_yards
      else Real.sqrt ((final_state.x * METERS_TO_YARDS) ^ 2 +
        (final_state.y * METERS_TO_YARDS) ^ 2)
    let roll_2d_yards := if roll_path_m.isEmpty then 0.0
      else total_2d_yards - carry_2d_yards
    (simg, ⟨impact, flight_path_yards, roll_path_yards, final_position_yards,
      carry_2d_yards, roll_2d_yards, total_2d_yards,
      (rad_s_to_rpm final_state.bs, rad_s_to_rpm final_state.ss)⟩)

/-! ### Helper lemmas -/

/-- The looked-up surface pair is always one of the three table entries. -/
lemma surfaceProps_cases (t : String) :
    surfaceProps t = (0.35, 0.40) ∨ surfaceProps t = (0.30, 0.35) ∨
    surfaceProps t = (0.45, 0.30) := by
  unfold surfaceProps
  split_ifs <;> simp

/-- The restitution from the surface table is nonnegative. -/
lemma surfaceProps_restitution_nonneg (t : String) : (0:ℝ) ≤ (surfaceProps t).2 := by
  rcases surfaceProps_cases t with h | h | h <;> rw [h] <;> norm_num

/-- The friction from the surface table is nonnegative. -/
lemma surfaceProps_friction_nonneg (t : String) : (0:ℝ) ≤ (surfaceProps t).1 := by
  rcases surfaceProps_cases t with h | h | h <;> rw [h] <;> norm_num

/-! ### C1: the square-face, centered-strike sidespin override -/

/-- C1: for every parameter set with `club_face_angle_deg = 0` and
`horizontal_offset_cm = 0`, `compute_impact` returns `sidespin_rpm`
equal to exactly 0: the override branch forces it to zero and the
subsequent clamp `max (min 0 3000) (-3000)` preserves the exact zero. -/
theorem compute_impact_sidespin_override_zero
    (club_speed_mps club_loft_deg club_face_angle_deg horizontal_offset_cm
     vertical_offset_cm ball_compression_rating base_cor base_smash_factor
     toe_gear_rpm_cm vert_gear_rpm_cm : ℝ)
    (hface : club_face_angle_deg = 0) (hoff : horizontal_offset_cm = 0) :
    (compute_impact club_speed_mps club_loft_deg club_face_angle_deg
      horizontal_offset_cm vertical_offset_cm ball_compression_rating base_cor
      base_smash_factor toe_gear_rpm_cm vert_gear_rpm_cm).sidespin_rpm = 0 := by
  simp only [compute_impact, hface, hoff]
  norm_num

/-- Witness for C1 at a concrete parameter set. -/
theorem compute_impact_sidespin_override_zero_witness :
    (compute_impact 40 10 0 0 0 1.0 0.83 1.5 120 80).sidespin_rpm = 0 :=
  compute_impact_sidespin_override_zero 40 10 0 0 0 1.0 0.83 1.5 120 80 rfl rfl

/-! ### C10: the backspin clamp is one-sided -/

/-- C10: there are valid shot parameters (club speed 40 > 0, vertical
offset -4000 cm) for which `compute_impact` returns a strictly negative
`backspin_rpm`: the clamp `min backspin 6000` bounds backspin only from
above, so the returned value -800 is negative at the public interface. -/
theorem compute_impact_backspin_negative :
    (0:ℝ) < 40 ∧
    (compute_impact 40 10 0 0 (-4000) 1.0 0.83 1.5 120 80).backspin_rpm = -800 ∧
    (compute_impact 40 10 0 0 (-4000) 1.0 0.83 1.5 120 80).backspin_rpm < 0 := by
  refine ⟨by norm_num, ?_, ?_⟩ <;>
    · simp only [compute_impact]
      norm_num

/-! ### C8: unknown surface strings fall back to fairway -/

/-- C8: for every surface string whose lowercasing is none of "fairway",
"rough", "green", the looked-up pair is exactly fairway's
(friction 0.35, restitution 0.40), it coincides with the fairway table
entry, and the whole `simulate_bounce_and_roll` run is identical to the
run with surface "fairway": a silent fallback, never a failure. -/
theorem unknown_surface_uses_fairway_pair (last_flight_state : BallState)
    (ball_mass ball_radius gravity ground_restitution ground_friction
     spin_friction_factor time_step : ℝ) (max_steps : ℕ) (surface_type : String)
    (h1 : strLower surface_type ≠ "fairway")
    (h2 : strLower surface_type ≠ "rough")
    (h3 : strLower surface_type ≠ "green") :
    surfaceProps surface_type = (0.35, 0.40) ∧
    surfaceProps surface_type = surfaceProps ("fairway") ∧
    simulate_bounce_and_roll last_flight_state ball_mass ball_radius gravity
        ground_restitution surface_type ground_friction spin_friction_factor
        time_step max_steps
      = simulate_bounce_and_roll last_flight_state ball_mass ball_radius gravity
        ground_restitution ("fairway") ground_friction spin_friction_factor
        time_step max_steps := by
  have hfw : surfaceProps ("fairway") = (0.35, 0.40) := by
    have h : strLower ("fairway") = "fairway" := by decide
    simp [surfaceProps, h]
  have hsp : surfaceProps surface_type = (0.35, 0.40) := by
    simp [surfaceProps, h1, h2, h3]
  exact ⟨hsp, by rw [hsp, hfw], by simp only [simulate_bounce_and_roll, hsp, hfw]⟩

/-- Witness for C8 at the surface string "bunker". -/
theorem unknown_surface_uses_fairway_pair_witness :
    surfaceProps ("bunker") = (0.35, 0.40) ∧
    surfaceProps ("bunker") = surfaceProps ("fairway") ∧
    simulate_bounce_and_roll ⟨0, 0, 0, 1, 0, 0, 0, 0⟩ 0.04593 0.02135 9.81 0.40
        ("bunker") 0.35 0.001 0.01 3
      = simulate_bounce_and_roll ⟨0, 0, 0, 1, 0, 0, 0, 0⟩ 0.04593 0.02135 9.81 0.40
        ("fairway") 0.35 0.001 0.01 3 :=
  unknown_surface_uses_fairway_pair ⟨0, 0, 0, 1, 0, 0, 0, 0⟩ 0.04593 0.02135 9.81
    0.40 0.35 0.001 0.01 3 ("bunker") (by decide) (by decide) (by decide)

/-! ### C9: simulate_shot retains no state that affects results -/

/-- C9: `simulate_shot` is a pure function of its arguments: its result is
unchanged under any change of the two gear-ratio fields of the incoming
object state (the only fields `set_gear_ratios` mutates, and it overwrites
them from `club_type` before use), and a second call on the post-call
state with identical arguments returns the identical result. -/
theorem simulate_shot_stateless (sim : SimState) (p : ShotParams) (a b : ℝ) :
    simulate_shot { sim with vert_gear_rpm_cm := a, toe_gear_rpm_cm := b } p
      = simulate_shot sim p
    ∧ (simulate_shot (simulate_shot sim p).1 p).2 = (simulate_shot sim p).2 := by
  have hset : ∀ (s : SimState) (x y : ℝ) (ct : String),
      set_gear_ratios { s with vert_gear_rpm_cm := x, toe_gear_rpm_cm := y } ct
        = set_gear_ratios s ct := by
    intro s x y ct
    simp only [set_gear_ratios]
  have hmain : ∀ (s : SimState) (x y : ℝ),
      simulate_shot { s with vert_gear_rpm_cm := x, toe_gear_rpm_cm := y } p
        = simulate_shot s p := by
    intro s x y
    simp only [simulate_shot, hset]
  refine ⟨hmain sim a b, ?_⟩
  have hfst : (simulate_shot sim p).1 = set_gear_ratios sim p.club_type := by
    simp only [simulate_shot]
    split <;> rfl
  have hform : ∃ x y : ℝ, set_gear_ratios sim p.club_type
      = { sim with vert_gear_rpm_cm := x, toe_gear_rpm_cm := y } := by
    by_cases hd : strLower p.club_type = "driver"
    · exact ⟨60.0, 80.0, by simp only [set_gear_ratios, if_pos hd]⟩
    · by_cases hi : strLower p.club_type = "iron"
      · exact ⟨80.0, 120.0, by simp only [set_gear_ratios, if_neg hd, if_pos hi]⟩
      · exact ⟨80.0, 120.0, by simp only [set_gear_ratios, if_neg hd, if_neg hi]⟩
  obtain ⟨x, y, hxy⟩ := hform
  rw [hfst, hxy, hmain sim x y]

/-! ### Ground-model helper definitions and lemmas -/

/-- The `GroundEnv` that `simulate_bounce_and_roll` builds from its
arguments and the surface table. -/
noncomputable def groundEnvOf (ball_mass ball_radius gravity spin_friction_factor
    time_step : ℝ) (surface_type : String) : GroundEnv :=
  ⟨ball_mass, ball_radius, gravity, spin_friction_factor, time_step,
   (surfaceProps surface_type).1, (surfaceProps surface_type).2⟩

/-- `simulate_bounce_and_roll` is the ground loop in the looked-up
environment. -/
lemma simulate_bounce_and_roll_eq (st : BallState) (m r g gr : ℝ) (t : String)
    (gf sff dt : ℝ) (n : ℕ) :
    simulate_bounce_and_roll st m r g gr t gf sff dt n
      = groundLoop (groundEnvOf m r g sff dt t) n st := rfl

/-- Unfolding the ground loop at zero fuel. -/
lemma groundLoop_zero (c : GroundEnv) (s : BallState) : groundLoop c 0 s = [] := by
  rw [groundLoop]

/-- Unfolding one iteration of the ground loop. -/
lemma groundLoop_succ (c : GroundEnv) (n : ℕ) (s : BallState) :
    groundLoop c (n + 1) s
      = s :: (if Real.sqrt (s.vx ^ 2 + s.vy ^ 2) < 0.05 ∧ |s.vz| < 0.05 then []
              else groundLoop c n (groundStep c s)) := by
  rw [groundLoop]

/-- Unfolding the flight loop at zero fuel. -/
lemma flightLoop_zero (c : FlightEnv) (s : BallState) : flightLoop c 0 s = [] := by
  rw [flightLoop]

/-- Unfolding one iteration of the flight loop. -/
lemma flightLoop_succ (c : FlightEnv) (n : ℕ) (s : BallState) :
    flightLoop c (n + 1) s
      = s :: (if s.z < 0 then [] else flightLoop c n (flightStep c s)) := by
  rw [flightLoop]

/-- A decelerated velocity component with the source's sign clamp neither
flips sign nor grows in magnitude: `v * (1 - k)` is the decelerated value,
`v / sh` the direction, and the clamp zeroes the component when the update
would cross zero. -/
lemma clamped_decel_component (v sh k : ℝ) (hsh : 0 < sh) (hk : 0 ≤ k) :
    |(if v * (1 - k) * (v / sh) < 0 then (0:ℝ) else v * (1 - k))| ≤ |v| ∧
    0 ≤ (if v * (1 - k) * (v / sh) < 0 then (0:ℝ) else v * (1 - k)) * v := by
  by_cases hc : v * (1 - k) * (v / sh) < 0
  · simp only [if_pos hc, abs_zero, zero_mul, le_refl, and_true, abs_nonneg]
  · simp only [if_neg hc]
    have h0 : 0 ≤ v * (1 - k) * (v / sh) := not_lt.mp hc
    have hnn : 0 ≤ v * (1 - k) * v := by
      have h1 : v * (1 - k) * (v / sh) * sh = v * (1 - k) * v := by
        field_simp
      calc (0:ℝ) ≤ v * (1 - k) * (v / sh) * sh := mul_nonneg h0 hsh.le
        _ = v * (1 - k) * v := h1
    refine ⟨?_, hnn⟩
    by_cases hv : v = 0
    · subst hv; simp
    · have hv2 : 0 < v ^ 2 := by positivity
      have hnn2 : 0 ≤ v ^ 2 * (1 - k) := by nlinarith [hnn]
      have hk1 : 0 ≤ 1 - k := by
        by_contra hneg
        push_neg at hneg
        nlinarith [hv2]
      rw [abs_mul, abs_of_nonneg hk1]
      calc |v| * (1 - k) ≤ |v| * 1 := by
            apply mul_le_mul_of_nonneg_left _ (abs_nonneg v)
            linarith
        _ = |v| := mul_one _

/-! ### C4: bounce events scale the speeds as documented -/

/-- C4: at every bounce event of `simulate_bounce_and_roll` (a step with
`z ≤ 0` and `|vz| > 0.1`), the post-bounce vertical speed magnitude equals
the pre-bounce magnitude times the surface restitution coefficient
(exactly, hence within any tolerance), and the post-bounce horizontal
speed does not exceed the pre-bounce horizontal speed (it is attenuated by
the fixed factor `sqrt(1 - 0.3) * (1 - 0.05)`). -/
theorem bounce_step_speed_bounds (ball_mass ball_radius gravity
    spin_friction_factor time_step : ℝ) (surface_type : String) (s : BallState)
    (hz : s.z ≤ 0) (hvz : 0.1 < |s.vz|) :
    |(groundStep (groundEnvOf ball_mass ball_radius gravity spin_friction_factor
        time_step surface_type) s).vz| = (surfaceProps surface_type).2 * |s.vz| ∧
    Real.sqrt ((groundStep (groundEnvOf ball_mass ball_radius gravity
        spin_friction_factor time_step surface_type) s).vx ^ 2 +
      (groundStep (groundEnvOf ball_mass ball_radius gravity spin_friction_factor
        time_step surface_type) s).vy ^ 2)
      ≤ Real.sqrt (s.vx ^ 2 + s.vy ^ 2) := by
  have hrest : (0:ℝ) ≤ (surfaceProps surface_type).2 :=
    surfaceProps_restitution_nonneg surface_type
  simp only [groundStep, groundEnvOf, if_pos hz, if_pos hvz]
  constructor
  · rw [abs_mul, abs_neg, abs_of_nonneg hrest, mul_comm]
  · apply Real.sqrt_le_sqrt
    have h07 : Real.sqrt (1 - (0.3:ℝ)) ^ 2 = 1 - 0.3 := Real.sq_sqrt (by norm_num)
    nlinarith [sq_nonneg s.vx, sq_nonneg s.vy, Real.sqrt_nonneg (1 - (0.3:ℝ)), h07]

/-- Witness for C4 at a concrete bounce state on fairway. -/
theorem bounce_step_speed_bounds_witness :
    |(groundStep (groundEnvOf 0.04593 0.02135 9.81 0.001 0.01 ("fairway"))
        ⟨0, 0, 0, 3, 4, -5, 0, 0⟩).vz| = (surfaceProps ("fairway")).2 * |(-5:ℝ)| ∧
    Real.sqrt ((groundStep (groundEnvOf 0.04593 0.02135 9.81 0.001 0.01
        ("fairway")) ⟨0, 0, 0, 3, 4, -5, 0, 0⟩).vx ^ 2 +
      (groundStep (groundEnvOf 0.04593 0.02135 9.81 0.001 0.01 ("fairway"))
        ⟨0, 0, 0, 3, 4, -5, 0, 0⟩).vy ^ 2)
      ≤ Real.sqrt ((3:ℝ) ^ 2 + (4:ℝ) ^ 2) :=
  bounce_step_speed_bounds 0.04593 0.02135 9.81 0.001 0.01 ("fairway")
    ⟨0, 0, 0, 3, 4, -5, 0, 0⟩ (le_refl 0)
    (by rw [show |(-5:ℝ)| = 5 by rw [abs_neg]; exact abs_of_nonneg (by norm_num)]
        norm_num)

/-! ### C5: pure rolling never reverses a velocity component -/

/-- C5: in the pure-rolling branch of `simulate_bounce_and_roll` (ground
contact, `|vz| ≤ 0.1`, horizontal speed within tolerance of the rotational
surface speed), one step never flips the sign of either horizontal
velocity component and never increases its magnitude: each component
either keeps its sign with magnitude non-increasing or is set to exactly
zero by the overshoot clamp. -/
theorem roll_step_no_sign_change (ball_mass ball_radius gravity
    spin_friction_factor time_step : ℝ) (surface_type : String) (s : BallState)
    (hz : s.z ≤ 0) (hvz : ¬ 0.1 < |s.vz|)
    (hroll : ¬ s.bs * ball_radius + 0.1 < Real.sqrt (s.vx ^ 2 + s.vy ^ 2))
    (hg : 0 ≤ gravity) (hdt : 0 ≤ time_step) (hm : 0 < ball_mass) :
    |(groundStep (groundEnvOf ball_mass ball_radius gravity spin_friction_factor
        time_step surface_type) s).vx| ≤ |s.vx| ∧
    0 ≤ (groundStep (groundEnvOf ball_mass ball_radius gravity spin_friction_factor
        time_step surface_type) s).vx * s.vx ∧
    |(groundStep (groundEnvOf ball_mass ball_radius gravity spin_friction_factor
        time_step surface_type) s).vy| ≤ |s.vy| ∧
    0 ≤ (groundStep (groundEnvOf ball_mass ball_radius gravity spin_friction_factor
        time_step surface_type) s).vy * s.vy := by
  have hfr : (0:ℝ) ≤ (surfaceProps surface_type).1 :=
    surfaceProps_friction_nonneg surface_type
  simp only [groundStep, groundEnvOf, if_pos hz, if_neg hvz, if_neg hroll]
  by_cases hsp : (1e-9:ℝ) < Real.sqrt (s.vx ^ 2 + s.vy ^ 2)
  · simp only [if_pos hsp]
    have hsh : (0:ℝ) < Real.sqrt (s.vx ^ 2 + s.vy ^ 2) := by
      calc (0:ℝ) < 1e-9 := by norm_num
        _ < _ := hsp
    have hx : s.vx + -((surfaceProps surface_type).1 * ball_mass * gravity * 1.2) *
          (s.vx / Real.sqrt (s.vx ^ 2 + s.vy ^ 2)) / ball_mass * time_step
        = s.vx * (1 - (surfaceProps surface_type).1 * gravity * 1.2 * time_step /
            Real.sqrt (s.vx ^ 2 + s.vy ^ 2)) := by
      field_simp
      ring
    have hy : s.vy + -((surfaceProps surface_type).1 * ball_mass * gravity * 1.2) *
          (s.vy / Real.sqrt (s.vx ^ 2 + s.vy ^ 2)) / ball_mass * time_step
        = s.vy * (1 - (surfaceProps surface_type).1 * gravity * 1.2 * time_step /
            Real.sqrt (s.vx ^ 2 + s.vy ^ 2)) := by
      field_simp
      ring
    rw [hx, hy]
    have hk : 0 ≤ (surfaceProps surface_type).1 * gravity * 1.2 * time_step /
        Real.sqrt (s.vx ^ 2 + s.vy ^ 2) := by
      apply div_nonneg _ hsh.le
      have h1 : (0:ℝ) ≤ (surfaceProps surface_type).1 * gravity :=
        mul_nonneg hfr hg
      have h2 : (0:ℝ) ≤ (surfaceProps surface_type).1 * gravity * 1.2 := by
        nlinarith
      exact mul_nonneg h2 hdt
    obtain ⟨hx1, hx2⟩ := clamped_decel_component s.vx
      (Real.sqrt (s.vx ^ 2 + s.vy ^ 2)) _ hsh hk
    obtain ⟨hy1, hy2⟩ := clamped_decel_component s.vy
      (Real.sqrt (s.vx ^ 2 + s.vy ^ 2)) _ hsh hk
    exact ⟨hx1, hx2, hy1, hy2⟩
  · simp only [if_neg hsp]
    refine ⟨by simp, by simp, by simp, by simp⟩

/-- Witness for C5 at a concrete rolling state on fairway. -/
theorem roll_step_no_sign_change_witness :
    |(groundStep (groundEnvOf 0.04593 0.02135 9.81 0.001 0.01 ("fairway"))
        ⟨0, 0, 0, 3, 4, 0, 300, 0⟩).vx| ≤ |(3:ℝ)| ∧
    0 ≤ (groundStep (groundEnvOf 0.04593 0.02135 9.81 0.001 0.01 ("fairway"))
        ⟨0, 0, 0, 3, 4, 0, 300, 0⟩).vx * (3:ℝ) ∧
    |(groundStep (groundEnvOf 0.04593 0.02135 9.81 0.001 0.01 ("fairway"))
        ⟨0, 0, 0, 3, 4, 0, 300, 0⟩).vy| ≤ |(4:ℝ)| ∧
    0 ≤ (groundStep (groundEnvOf 0.04593 0.02135 9.81 0.001 0.01 ("fairway"))
        ⟨0, 0, 0, 3, 4, 0, 300, 0⟩).vy * (4:ℝ) :=
  roll_step_no_sign_change 0.04593 0.02135 9.81 0.001 0.01 ("fairway")
    ⟨0, 0, 0, 3, 4, 0, 300, 0⟩ (le_refl 0) (by norm_num)
    (by rw [show ((3:ℝ) ^ 2 + (4:ℝ) ^ 2) = 5 ^ 2 by norm_num,
            Real.sqrt_sq (by norm_num : (0:ℝ) ≤ 5)]
        norm_num)
    (by norm_num) (by norm_num) (by norm_num)

/-! ### C6: the z-clamp holds in slide/roll but not in the bounce phase -/

/-- C6 (amended): in the slide and roll branches of
`simulate_bounce_and_roll` (ground contact with `|vz| ≤ 0.1`) the vertical
coordinate of the produced state is set to exactly 0. -/
theorem ground_slide_roll_clamps_z (c : GroundEnv) (s : BallState)
    (hz : s.z ≤ 0) (hvz : ¬ 0.1 < |s.vz|) :
    (groundStep c s).z = 0 := by
  simp only [groundStep, if_pos hz, if_neg hvz]
  split <;> rfl

/-- Witness for the amended C6 at a concrete sliding state. -/
theorem ground_slide_roll_clamps_z_witness :
    (groundStep (groundEnvOf 0.04593 0.02135 9.81 0.001 0.01 ("fairway"))
      ⟨0, 0, 0, 1, 0, 0, 0, 0⟩).z = 0 :=
  ground_slide_roll_clamps_z _ _ (le_refl 0) (by norm_num)

/-- C6 (counterexample): the claim "once ground contact occurs, every
subsequent recorded ground-trajectory state has vertical coordinate
clamped to 0" is false.  Starting `simulate_bounce_and_roll` on fairway at
the contact state `(0,0,0)` with downward speed 5 m/s (time step 1 s,
2 steps), the bounce branch runs (contact at the first recorded state) and
the next recorded state has `z = 2 ≠ 0`: the bounce phase does not clamp
the vertical coordinate. -/
theorem ground_trajectory_not_clamped_to_zero :
    ∃ st ∈ simulate_bounce_and_roll ⟨0, 0, 0, 0, 0, -5, 0, 0⟩ 0.04593 0.02135 9.81
        0.40 ("fairway") 0.35 0.001 1 2, st.z ≠ 0 := by
  have hfw : surfaceProps ("fairway") = (0.35, 0.40) := by
    have h : strLower ("fairway") = "fairway" := by decide
    simp [surfaceProps, h]
  have habs : |(-5:ℝ)| = 5 := by
    rw [abs_neg]; exact abs_of_nonneg (by norm_num)
  have hstep : groundStep (groundEnvOf 0.04593 0.02135 9.81 0.001 1 ("fairway"))
      ⟨0, 0, 0, 0, 0, -5, 0, 0⟩ = ⟨0, 0, 2, 0, 0, 2, 0, 0⟩ := by
    simp only [groundStep, groundEnvOf, hfw]
    rw [if_pos (le_refl (0:ℝ)), if_pos (by rw [habs]; norm_num : (0.1:ℝ) < |(-5:ℝ)|)]
    norm_num
  have h1 : ∀ t : BallState,
      groundLoop (groundEnvOf 0.04593 0.02135 9.81 0.001 1 ("fairway")) 1 t = [t] := by
    intro t
    rw [show (1:ℕ) = 0 + 1 from rfl, groundLoop_succ]
    simp [groundLoop_zero]
  have hrun : simulate_bounce_and_roll ⟨0, 0, 0, 0, 0, -5, 0, 0⟩ 0.04593 0.02135 9.81
      0.40 ("fairway") 0.35 0.001 1 2
      = [⟨0, 0, 0, 0, 0, -5, 0, 0⟩, ⟨0, 0, 2, 0, 0, 2, 0, 0⟩] := by
    rw [simulate_bounce_and_roll_eq, show (2:ℕ) = 1 + 1 from rfl, groundLoop_succ]
    rw [if_neg (by rw [habs]; intro h; exact absurd h.2 (by norm_num))]
    rw [hstep, h1]
  rw [hrun]
  exact ⟨⟨0, 0, 2, 0, 0, 2, 0, 0⟩, by simp, by norm_num⟩

/-! ### Flight-loop helper lemmas -/

/-- A non-breaking flight iteration. -/
lemma flightLoop_cons (c : FlightEnv) (n : ℕ) (s : BallState) (h : ¬ s.z < 0) :
    flightLoop c (n + 1) s = s :: flightLoop c n (flightStep c s) := by
  rw [flightLoop_succ, if_neg h]

/-- A breaking flight iteration: a below-ground state is recorded and ends
the loop. -/
lemma flightLoop_break (c : FlightEnv) (n : ℕ) (s : BallState) (h : s.z < 0) :
    flightLoop c (n + 1) s = [s] := by
  rw [flightLoop_succ, if_pos h]

/-- Every recorded flight state except possibly the last is at or above
ground level. -/
lemma flightLoop_dropLast_nonneg (c : FlightEnv) :
    ∀ (n : ℕ) (s : BallState), ∀ st ∈ (flightLoop c n s).dropLast, 0 ≤ st.z := by
  intro n
  induction n with
  | zero => intro s st hst; rw [flightLoop_zero] at hst; simp at hst
  | succ n ih =>
    intro s st hst
    by_cases hz : s.z < 0
    · rw [flightLoop_break c n s hz] at hst
      simp at hst
    · rw [flightLoop_cons c n s hz] at hst
      cases hl : flightLoop c n (flightStep c s) with
      | nil => rw [hl] at hst; simp at hst
      | cons a t =>
        rw [hl, List.dropLast_cons₂] at hst
        rcases List.mem_cons.mp hst with h1 | h2
        · exact h1 ▸ not_lt.mp hz
        · exact ih (flightStep c s) st (by rw [hl]; exact h2)

/-- If the flight loop records any below-ground state, then the last
recorded state is below ground. -/
lemma flightLoop_getLastD_below (c : FlightEnv) :
    ∀ (n : ℕ) (s d : BallState),
      (∃ st ∈ flightLoop c n s, st.z < 0) →
      ((flightLoop c n s).getLastD d).z < 0 := by
  intro n
  induction n with
  | zero =>
    intro s d h
    rw [flightLoop_zero] at h
    simp at h
  | succ n ih =>
    intro s d h
    by_cases hz : s.z < 0
    · rw [flightLoop_break c n s hz]
      simpa [List.getLastD_cons, List.getLastD_nil] using hz
    · rw [flightLoop_cons c n s hz] at h ⊢
      obtain ⟨st, hmem, hst⟩ := h
      rcases List.mem_cons.mp hmem with h1 | h2
      · exact absurd (h1 ▸ hst) hz
      · rw [List.getLastD_cons]
        exact ih (flightStep c s) s ⟨st, h2, hst⟩

/-! ### C2: reaching the step cap truncates silently, with no flag -/

/-- C2: a flight that reaches the configured maximum step count without
satisfying the termination condition (`z < 0`) is not surfaced as a
distinct flagged result: `simulate_flight` returns the bare partial
trajectory, of exactly `max_steps` states, every state at or above ground
level (the termination condition never met), in the same plain list shape
as a normally completed shot — there is no NonTermination marking anywhere
in the returned value.  Concrete truncating input: zero launch speed and
zero gravity with `max_steps = 5`. -/
theorem flight_cap_truncates_silently :
    simulate_flight 0 0 0 0 0 0 0 20 0.5 0 0.04593 0.02135 0.2 0.3 0.000005 0 1 5
      = List.replicate 5 ⟨0, 0, 0, 0, 0, 0, 0, 0⟩ ∧
    (simulate_flight 0 0 0 0 0 0 0 20 0.5 0 0.04593 0.02135 0.2 0.3 0.000005 0 1
      5).length = 5 ∧
    ∀ st ∈ simulate_flight 0 0 0 0 0 0 0 20 0.5 0 0.04593 0.02135 0.2 0.3 0.000005
      0 1 5, 0 ≤ st.z := by
  have hinit : simulate_flight 0 0 0 0 0 0 0 20 0.5 0 0.04593 0.02135 0.2 0.3
      0.000005 0 1 5
      = flightLoop ⟨0, 0, 0.04593, 0.02135, 0.2, 0.3, 0.000005, 0, 1⟩ 5
        ⟨0, 0, 0, 0, 0, 0, 0, 0⟩ := by
    simp only [simulate_flight, rpm_to_rad_s]
    norm_num
  have hstep0 : flightStep ⟨0, 0, 0.04593, 0.02135, 0.2, 0.3, 0.000005, 0, 1⟩
      ⟨0, 0, 0, 0, 0, 0, 0, 0⟩ = ⟨0, 0, 0, 0, 0, 0, 0, 0⟩ := by
    simp only [flightStep]
    norm_num [Real.sqrt_zero]
  have hloop : ∀ n : ℕ, flightLoop ⟨0, 0, 0.04593, 0.02135, 0.2, 0.3, 0.000005, 0, 1⟩
      n ⟨0, 0, 0, 0, 0, 0, 0, 0⟩ = List.replicate n ⟨0, 0, 0, 0, 0, 0, 0, 0⟩ := by
    intro n
    induction n with
    | zero => rw [flightLoop_zero, List.replicate]
    | succ n ih =>
      rw [flightLoop_cons _ _ _ (by norm_num), hstep0, ih, List.replicate_succ ..]
  have h : simulate_flight 0 0 0 0 0 0 0 20 0.5 0 0.04593 0.02135 0.2 0.3 0.000005
      0 1 5 = List.replicate 5 ⟨0, 0, 0, 0, 0, 0, 0, 0⟩ := by rw [hinit, hloop]
  refine ⟨h, by rw [h]; simp, ?_⟩
  intro st hst
  rw [h] at hst
  rw [List.eq_of_mem_replicate hst]

/-! ### C3: the ground-contact handoff is not interpolated -/

/-- Evaluation helper: one flight step of a purely vertical state under
zero wind, zero spin, zero ball radius, gravity 10 and unit time step. -/
lemma flightStep_vertical_eval (zv vzv : ℝ) :
    flightStep ⟨0, 0, 0.04593, 0, 0.2, 0.3, 0, 10, 1⟩ ⟨0, 0, zv, 0, 0, vzv, 0, 0⟩
      = ⟨0, 0, zv + (vzv - 10), 0, 0, vzv - 10, 0, 0⟩ := by
  simp only [flightStep]
  norm_num
  ring

/-- Evaluation helper: a straight-up launch (90 degrees loft direction)
reduces `simulate_flight` to the vertical flight loop. -/
lemma simulate_flight_vertical_init (v : ℝ) :
    simulate_flight v 90 0 0 0 0 0 20 0.5 0 0.04593 0 0.2 0.3 0 10 1 100
      = flightLoop ⟨0, 0, 0.04593, 0, 0.2, 0.3, 0, 10, 1⟩ 100
          ⟨0, 0, 0, 0, 0, v, 0, 0⟩ := by
  have h90 : radians 90 = Real.pi / 2 := by
    simp only [radians]; ring
  simp only [simulate_flight, rpm_to_rad_s, h90, Real.cos_pi_div_two,
    Real.sin_pi_div_two]
  norm_num

/-- C3 (counterexample): a flight run in which the vertical position
changes sign between consecutive recorded steps (z = 10 > 0 followed by
z = -18 < 0), where the state handed to the ground-contact model
(`flightHandoff`, Python `flight_path_m[-1]` in
`CompleteGolfSim.simulate_shot`) is the raw first below-ground sample with
`z = -18`, not a linearly interpolated state with vertical coordinate 0:
no interpolation is performed anywhere in the pipeline. -/
theorem flight_handoff_below_ground_not_interpolated :
    simulate_flight 32 90 0 0 0 0 0 20 0.5 0 0.04593 0 0.2 0.3 0 10 1 100
      = [⟨0, 0, 0, 0, 0, 32, 0, 0⟩, ⟨0, 0, 22, 0, 0, 22, 0, 0⟩,
         ⟨0, 0, 34, 0, 0, 12, 0, 0⟩, ⟨0, 0, 36, 0, 0, 2, 0, 0⟩,
         ⟨0, 0, 28, 0, 0, -8, 0, 0⟩, ⟨0, 0, 10, 0, 0, -18, 0, 0⟩,
         ⟨0, 0, -18, 0, 0, -28, 0, 0⟩] ∧
    (flightHandoff (simulate_flight 32 90 0 0 0 0 0 20 0.5 0 0.04593 0 0.2 0.3 0
      10 1 100)).z = -18 := by
  have hrun : simulate_flight 32 90 0 0 0 0 0 20 0.5 0 0.04593 0 0.2 0.3 0 10 1 100
      = [⟨0, 0, 0, 0, 0, 32, 0, 0⟩, ⟨0, 0, 22, 0, 0, 22, 0, 0⟩,
         ⟨0, 0, 34, 0, 0, 12, 0, 0⟩, ⟨0, 0, 36, 0, 0, 2, 0, 0⟩,
         ⟨0, 0, 28, 0, 0, -8, 0, 0⟩, ⟨0, 0, 10, 0, 0, -18, 0, 0⟩,
         ⟨0, 0, -18, 0, 0, -28, 0, 0⟩] := by
    rw [simulate_flight_vertical_init]
    rw [show (100:ℕ) = 99 + 1 from rfl, flightLoop_cons _ _ _ (by norm_num),
      flightStep_vertical_eval]
    rw [show (99:ℕ) = 98 + 1 from rfl, flightLoop_cons _ _ _ (by norm_num),
      flightStep_vertical_eval]
    rw [show (98:ℕ) = 97 + 1 from rfl, flightLoop_cons _ _ _ (by norm_num),
      flightStep_vertical_eval]
    rw [show (97:ℕ) = 96 + 1 from rfl, flightLoop_cons _ _ _ (by norm_num),
      flightStep_vertical_eval]
    rw [show (96:ℕ) = 95 + 1 from rfl, flightLoop_cons _ _ _ (by norm_num),
      flightStep_vertical_eval]
    rw [show (95:ℕ) = 94 + 1 from rfl, flightLoop_cons _ _ _ (by norm_num),
      flightStep_vertical_eval]
    rw [show (94:ℕ) = 93 + 1 from rfl, flightLoop_break _ _ _ (by norm_num)]
    norm_num
  refine ⟨hrun, ?_⟩
  rw [hrun]
  simp [flightHandoff, List.getLastD_cons, List.getLastD_nil]

/-- C3 (amended): the flight loop performs no ground-contact
interpolation: whenever some recorded state is below ground, the state
handed on (`flightHandoff`, the last recorded sample) is itself strictly
below ground (`z < 0`), and it is the FIRST below-ground sample — every
earlier recorded state has `z ≥ 0`. -/
theorem flight_handoff_is_first_below_ground (c : FlightEnv) (n : ℕ) (s : BallState)
    (h : ∃ st ∈ flightLoop c n s, st.z < 0) :
    (flightHandoff (flightLoop c n s)).z < 0 ∧
    ∀ st ∈ (flightLoop c n s).dropLast, 0 ≤ st.z :=
  ⟨flightLoop_getLastD_below c n s _ h, flightLoop_dropLast_nonneg c n s⟩

/-- Witness for the amended C3 at a concrete descending flight run. -/
theorem flight_handoff_is_first_below_ground_witness :
    (flightHandoff (flightLoop ⟨0, 0, 0.04593, 0, 0.2, 0.3, 0, 10, 1⟩ 100
        ⟨0, 0, 0, 0, 0, 22, 0, 0⟩)).z < 0 ∧
    ∀ st ∈ (flightLoop ⟨0, 0, 0.04593, 0, 0.2, 0.3, 0, 10, 1⟩ 100
        ⟨0, 0, 0, 0, 0, 22, 0, 0⟩).dropLast, 0 ≤ st.z := by
  have hrun : flightLoop ⟨0, 0, 0.04593, 0, 0.2, 0.3, 0, 10, 1⟩ 100
      ⟨0, 0, 0, 0, 0, 22, 0, 0⟩
      = [⟨0, 0, 0, 0, 0, 22, 0, 0⟩, ⟨0, 0, 12, 0, 0, 12, 0, 0⟩,
         ⟨0, 0, 14, 0, 0, 2, 0, 0⟩, ⟨0, 0, 6, 0, 0, -8, 0, 0⟩,
         ⟨0, 0, -12, 0, 0, -18, 0, 0⟩] := by
    rw [show (100:ℕ) = 99 + 1 from rfl, flightLoop_cons _ _ _ (by norm_num),
      flightStep_vertical_eval]
    rw [show (99:ℕ) = 98 + 1 from rfl, flightLoop_cons _ _ _ (by norm_num),
      flightStep_vertical_eval]
    rw [show (98:ℕ) = 97 + 1 from rfl, flightLoop_cons _ _ _ (by norm_num),
      flightStep_vertical_eval]
    rw [show (97:ℕ) = 96 + 1 from rfl, flightLoop_cons _ _ _ (by norm_num),
      flightStep_vertical_eval]
    rw [show (96:ℕ) = 95 + 1 from rfl, flightLoop_break _ _ _ (by norm_num)]
    norm_num
  apply flight_handoff_is_first_below_ground
  rw [hrun]
  exact ⟨⟨0, 0, -12, 0, 0, -18, 0, 0⟩, by simp, by norm_num⟩

/-! ### C7 infrastructure: the concrete iron/fairway scenario

Scenario: club speed 40 m/s, loft 10 deg, square face, centered strike,
no wind, 20 C, humidity 0.5, sea level, fairway surface, iron.  Impact
yields launch speed 60 m/s, angles (10, 0), backspin 3200 rpm, sidespin 0.
The flight and ground phases are analyzed through loop invariants. -/

/-- The flight-loop environment `CompleteGolfSim.simulate_shot` builds in
the scenario (no wind, default ball and integrator constants). -/
noncomputable def scenarioFlightEnv : FlightEnv :=
  ⟨0, 0, 0.04593, 0.02135, 0.2, 0.3, 0.000005, 9.81, 0.01⟩

/-- The ground-loop environment of the scenario (fairway coefficients). -/
noncomputable def scenarioGroundEnv : GroundEnv :=
  ⟨0.04593, 0.02135, 9.81, 0.001, 0.01, 0.35, 0.40⟩


/-- The drag rescale coefficient of one scenario flight step: the new
velocity is the old one times `1 - scenarioDragK s`. -/
noncomputable def scenarioDragK (s : BallState) : ℝ :=
  0.5 * (0.2 * (1 + 0.1 * (s.bs / 1000))) * Real.pi * 0.02135 ^ 2 * 0.01 *
    Real.sqrt (s.vx ^ 2 + s.vy ^ 2 + s.vz ^ 2) / 0.04593

/-- The lift-minus-gravity vertical velocity increment of one scenario
flight step. -/
noncomputable def scenarioLift (s : BallState) : ℝ :=
  (0.5 * (0.3 * (s.bs / 1000)) * Real.pi * 0.02135 ^ 2 / 0.04593 *
    (s.vx ^ 2 + s.vy ^ 2 + s.vz ^ 2) - 9.81) * 0.01

/-- Triangle bound for the Euclidean norm of a rescaled velocity with a
vertical offset. -/
lemma norm3_affine_bound (a b vx vy vz : ℝ) (ha : 0 ≤ a) :
    Real.sqrt ((vx * a) ^ 2 + (vy * a) ^ 2 + (vz * a + b) ^ 2)
      ≤ a * Real.sqrt (vx ^ 2 + vy ^ 2 + vz ^ 2) + |b| := by
  have hS : 0 ≤ Real.sqrt (vx ^ 2 + vy ^ 2 + vz ^ 2) := Real.sqrt_nonneg _
  have hS2 : Real.sqrt (vx ^ 2 + vy ^ 2 + vz ^ 2) ^ 2 = vx ^ 2 + vy ^ 2 + vz ^ 2 :=
    Real.sq_sqrt (by positivity)
  have hS2a : a ^ 2 * Real.sqrt (vx ^ 2 + vy ^ 2 + vz ^ 2) ^ 2
      = a ^ 2 * (vx ^ 2 + vy ^ 2 + vz ^ 2) := by rw [hS2]
  have hvzS : |vz| ≤ Real.sqrt (vx ^ 2 + vy ^ 2 + vz ^ 2) := by
    rw [← Real.sqrt_sq_eq_abs]
    exact Real.sqrt_le_sqrt (by nlinarith [sq_nonneg vx, sq_nonneg vy])
  have hRHS : 0 ≤ a * Real.sqrt (vx ^ 2 + vy ^ 2 + vz ^ 2) + |b| := by positivity
  rw [show a * Real.sqrt (vx ^ 2 + vy ^ 2 + vz ^ 2) + |b|
      = Real.sqrt ((a * Real.sqrt (vx ^ 2 + vy ^ 2 + vz ^ 2) + |b|) ^ 2) from
    (Real.sqrt_sq hRHS).symm]
  apply Real.sqrt_le_sqrt
  have habs : b * vz ≤ |b| * Real.sqrt (vx ^ 2 + vy ^ 2 + vz ^ 2) := by
    calc b * vz ≤ |b * vz| := le_abs_self _
      _ = |b| * |vz| := abs_mul ..
      _ ≤ |b| * Real.sqrt (vx ^ 2 + vy ^ 2 + vz ^ 2) :=
          mul_le_mul_of_nonneg_left hvzS (abs_nonneg b)
  nlinarith [mul_le_mul_of_nonneg_left habs ha, hS2a, sq_abs b]

/-- Generic projection facts about one flight step: the position advances
by the new velocity times the time step, and the spins decay
multiplicatively. -/
lemma flightStep_x (c : FlightEnv) (s : BallState) :
    (flightStep c s).x = s.x + (flightStep c s).vx * c.time_step := rfl

/-- The y position advances by the new vy times the time step. -/
lemma flightStep_y (c : FlightEnv) (s : BallState) :
    (flightStep c s).y = s.y + (flightStep c s).vy * c.time_step := rfl

/-- The backspin decays multiplicatively in one flight step. -/
lemma flightStep_bs (c : FlightEnv) (s : BallState) :
    (flightStep c s).bs = s.bs * (1 - c.spin_decay_rate * c.time_step) := rfl

/-- The sidespin decays multiplicatively in one flight step. -/
lemma flightStep_ss (c : FlightEnv) (s : BallState) :
    (flightStep c s).ss = s.ss * (1 - c.spin_decay_rate * c.time_step) := rfl

/-- Evaluation of the new vx in a scenario flight step. -/
lemma flightStep_vx_eval (s : BallState)
    (hne : Real.sqrt (s.vx ^ 2 + s.vy ^ 2 + s.vz ^ 2) ≠ 0) :
    (flightStep scenarioFlightEnv s).vx = s.vx * (1 - scenarioDragK s) := by
  simp only [flightStep, scenarioFlightEnv, sub_zero, scenarioDragK]
  rw [if_neg hne]
  generalize hS : Real.sqrt (s.vx ^ 2 + s.vy ^ 2 + s.vz ^ 2) = S
  rw [hS] at hne
  field_simp
  ring

/-- Evaluation of the new vy in a scenario flight step. -/
lemma flightStep_vy_eval (s : BallState)
    (hne : Real.sqrt (s.vx ^ 2 + s.vy ^ 2 + s.vz ^ 2) ≠ 0) :
    (flightStep scenarioFlightEnv s).vy = s.vy * (1 - scenarioDragK s) := by
  simp only [flightStep, scenarioFlightEnv, sub_zero, scenarioDragK]
  rw [if_neg hne]
  generalize hS : Real.sqrt (s.vx ^ 2 + s.vy ^ 2 + s.vz ^ 2) = S
  rw [hS] at hne
  field_simp
  ring

/-- Evaluation of the new vz in a scenario flight step. -/
lemma flightStep_vz_eval (s : BallState)
    (hne : Real.sqrt (s.vx ^ 2 + s.vy ^ 2 + s.vz ^ 2) ≠ 0) :
    (flightStep scenarioFlightEnv s).vz
      = s.vz * (1 - scenarioDragK s) + scenarioLift s := by
  have hS2 : Real.sqrt (s.vx ^ 2 + s.vy ^ 2 + s.vz ^ 2) ^ 2
      = s.vx ^ 2 + s.vy ^ 2 + s.vz ^ 2 := Real.sq_sqrt (by positivity)
  simp only [flightStep, scenarioFlightEnv, sub_zero, scenarioDragK, scenarioLift]
  rw [if_neg hne]
  generalize hS : Real.sqrt (s.vx ^ 2 + s.vy ^ 2 + s.vz ^ 2) = S
  rw [hS] at hne hS2
  rw [← hS2]
  field_simp
  ring

/-- The flight-phase invariant for the scenario: the shot stays in the
x-z plane (`y = vy = 0`), carries no sidespin, keeps a positive bounded
backspin, keeps a strictly positive downrange velocity, and its speed
never exceeds 85 m/s. -/
def ScenarioFlightInv (s : BallState) : Prop :=
  s.y = 0 ∧ s.vy = 0 ∧ s.ss = 0 ∧ 0 < s.bs ∧ s.bs ≤ 335.11 ∧ 0 < s.vx ∧
  Real.sqrt (s.vx ^ 2 + s.vy ^ 2 + s.vz ^ 2) ≤ 85

set_option maxHeartbeats 2000000 in
/-- One scenario flight step preserves the invariant and never moves the
ball backwards. -/
lemma scenario_flightStep_inv (s : BallState) (h : ScenarioFlightInv s) :
    ScenarioFlightInv (flightStep scenarioFlightEnv s) ∧
    s.x ≤ (flightStep scenarioFlightEnv s).x := by
  obtain ⟨hy, hvy, hss, hbs0, hbsB, hvx, hsp⟩ := h
  have hq0 : (0:ℝ) < s.vx ^ 2 + s.vy ^ 2 + s.vz ^ 2 := by
    have h1 := pow_pos hvx 2
    nlinarith [sq_nonneg s.vy, sq_nonneg s.vz]
  have hSpos : 0 < Real.sqrt (s.vx ^ 2 + s.vy ^ 2 + s.vz ^ 2) :=
    Real.sqrt_pos.mpr hq0
  have hne : Real.sqrt (s.vx ^ 2 + s.vy ^ 2 + s.vz ^ 2) ≠ 0 := ne_of_gt hSpos
  have hS2 : Real.sqrt (s.vx ^ 2 + s.vy ^ 2 + s.vz ^ 2) ^ 2
      = s.vx ^ 2 + s.vy ^ 2 + s.vz ^ 2 := Real.sq_sqrt hq0.le
  have hπl : (3.141592:ℝ) < Real.pi := Real.pi_gt_3141592
  have hπu : Real.pi < 3.141593 := Real.pi_lt_3141593
  -- bounds on the drag rescale coefficient
  have hDl : (0.2:ℝ) ≤ 0.2 * (1 + 0.1 * (s.bs / 1000)) := by nlinarith
  have hDu : 0.2 * (1 + 0.1 * (s.bs / 1000)) ≤ 0.2068 := by nlinarith
  have hK0 : 0 < scenarioDragK s := by
    rw [scenarioDragK]
    apply div_pos _ (by norm_num : (0:ℝ) < 0.04593)
    apply mul_pos _ hSpos
    nlinarith [hπl]
  have hDπS : 0.2 * (1 + 0.1 * (s.bs / 1000)) * Real.pi *
      Real.sqrt (s.vx ^ 2 + s.vy ^ 2 + s.vz ^ 2) ≤ 0.2068 * 3.141593 * 85 := by
    apply mul_le_mul _ hsp hSpos.le (by norm_num)
    exact mul_le_mul hDu hπu.le Real.pi_pos.le (by norm_num)
  have hKu : scenarioDragK s ≤ 0.003 := by
    rw [scenarioDragK, div_le_iff (by norm_num : (0:ℝ) < 0.04593)]
    nlinarith [hDπS]
  -- lower bound on drag work against the speed, and upper bound on lift
  have hcoef : (0.000001428423:ℝ) ≤ 0.5 * (0.2 * (1 + 0.1 * (s.bs / 1000))) *
      Real.pi * 0.02135 ^ 2 * 0.01 := by
    nlinarith [hπl, hbs0, mul_pos hbs0 Real.pi_pos]
  have hKS : 0.0000311 * Real.sqrt (s.vx ^ 2 + s.vy ^ 2 + s.vz ^ 2) ^ 2
      ≤ scenarioDragK s * Real.sqrt (s.vx ^ 2 + s.vy ^ 2 + s.vz ^ 2) := by
    rw [scenarioDragK, div_mul_eq_mul_div, le_div_iff (by norm_num : (0:ℝ) < 0.04593)]
    nlinarith [mul_le_mul_of_nonneg_right hcoef (mul_nonneg hSpos.le hSpos.le)]
  have hbsπ : s.bs * Real.pi ≤ 335.11 * 3.141593 :=
    mul_le_mul hbsB hπu.le Real.pi_pos.le (by norm_num)
  have hb : |scenarioLift s| ≤ 0.0981 + 0.0000157 *
      Real.sqrt (s.vx ^ 2 + s.vy ^ 2 + s.vz ^ 2) ^ 2 := by
    rw [scenarioLift, hS2]
    have hLnn : 0 ≤ 0.5 * (0.3 * (s.bs / 1000)) * Real.pi * 0.02135 ^ 2 / 0.04593 *
        (s.vx ^ 2 + s.vy ^ 2 + s.vz ^ 2) := by
      apply mul_nonneg _ hq0.le
      apply div_nonneg _ (by norm_num)
      nlinarith [mul_pos hbs0 Real.pi_pos]
    have hLu : 0.5 * (0.3 * (s.bs / 1000)) * Real.pi * 0.02135 ^ 2 / 0.04593 *
        (s.vx ^ 2 + s.vy ^ 2 + s.vz ^ 2) ≤ 0.00157 * (s.vx ^ 2 + s.vy ^ 2 + s.vz ^ 2) := by
      apply mul_le_mul_of_nonneg_right _ hq0.le
      rw [div_le_iff (by norm_num : (0:ℝ) < 0.04593)]
      nlinarith [hbsπ]
    rw [abs_mul]
    rw [show |(0.01:ℝ)| = 0.01 from abs_of_nonneg (by norm_num)]
    have habs : |0.5 * (0.3 * (s.bs / 1000)) * Real.pi * 0.02135 ^ 2 / 0.04593 *
        (s.vx ^ 2 + s.vy ^ 2 + s.vz ^ 2) - 9.81| ≤ 9.81 + 0.00157 *
        (s.vx ^ 2 + s.vy ^ 2 + s.vz ^ 2) := by
      rw [abs_sub_comm, abs_le]
      constructor <;> nlinarith [hLnn, hLu]
    nlinarith [habs, hq0]
  constructor
  · refine ⟨?_, ?_, ?_, ?_, ?_, ?_, ?_⟩
    · rw [flightStep_y, flightStep_vy_eval s hne, hvy, hy]
      simp
    · rw [flightStep_vy_eval s hne, hvy, zero_mul]
    · rw [flightStep_ss, hss, zero_mul]
    · rw [flightStep_bs]
      show 0 < s.bs * (1 - scenarioFlightEnv.spin_decay_rate * scenarioFlightEnv.time_step)
      simp only [scenarioFlightEnv]
      nlinarith [hbs0]
    · rw [flightStep_bs]
      show s.bs * (1 - scenarioFlightEnv.spin_decay_rate * scenarioFlightEnv.time_step) ≤ 335.11
      simp only [scenarioFlightEnv]
      nlinarith [hbs0, hbsB]
    · rw [flightStep_vx_eval s hne]
      apply mul_pos hvx
      linarith
    · rw [flightStep_vx_eval s hne, flightStep_vy_eval s hne, flightStep_vz_eval s hne]
      have htri := norm3_affine_bound (1 - scenarioDragK s) (scenarioLift s)
        s.vx s.vy s.vz (by linarith)
      rcases le_or_lt (Real.sqrt (s.vx ^ 2 + s.vy ^ 2 + s.vz ^ 2)) 80 with h80 | h80
      · -- low-speed case: growth is at most |lift - gravity| * dt
        have h1 : (1 - scenarioDragK s) * Real.sqrt (s.vx ^ 2 + s.vy ^ 2 + s.vz ^ 2)
            ≤ Real.sqrt (s.vx ^ 2 + s.vy ^ 2 + s.vz ^ 2) := by
          nlinarith [hK0, hSpos]
        have h2 : |scenarioLift s| ≤ 0.0981 + 0.0000157 * 80 ^ 2 := by
          have : Real.sqrt (s.vx ^ 2 + s.vy ^ 2 + s.vz ^ 2) ^ 2 ≤ 80 ^ 2 := by
            nlinarith [hSpos]
          nlinarith [hb]
        calc Real.sqrt ((s.vx * (1 - scenarioDragK s)) ^ 2 +
              (s.vy * (1 - scenarioDragK s)) ^ 2 +
              (s.vz * (1 - scenarioDragK s) + scenarioLift s) ^ 2)
            ≤ (1 - scenarioDragK s) * Real.sqrt (s.vx ^ 2 + s.vy ^ 2 + s.vz ^ 2) +
              |scenarioLift s| := htri
          _ ≤ 85 := by nlinarith [h1, h2, h80]
      · -- high-speed case: drag work dominates lift plus gravity
        have h2 : |scenarioLift s| ≤ scenarioDragK s *
            Real.sqrt (s.vx ^ 2 + s.vy ^ 2 + s.vz ^ 2) := by
          have hs2 : (6400:ℝ) < Real.sqrt (s.vx ^ 2 + s.vy ^ 2 + s.vz ^ 2) ^ 2 := by
            nlinarith [h80, hSpos]
          nlinarith [hb, hKS, hs2]
        calc Real.sqrt ((s.vx * (1 - scenarioDragK s)) ^ 2 +
              (s.vy * (1 - scenarioDragK s)) ^ 2 +
              (s.vz * (1 - scenarioDragK s) + scenarioLift s) ^ 2)
            ≤ (1 - scenarioDragK s) * Real.sqrt (s.vx ^ 2 + s.vy ^ 2 + s.vz ^ 2) +
              |scenarioLift s| := htri
          _ ≤ Real.sqrt (s.vx ^ 2 + s.vy ^ 2 + s.vz ^ 2) := by nlinarith [h2, hSpos]
          _ ≤ 85 := hsp
  · rw [flightStep_x]
    have hvx1 : 0 < (flightStep scenarioFlightEnv s).vx := by
      rw [flightStep_vx_eval s hne]
      apply mul_pos hvx
      linarith
    have : (0:ℝ) ≤ (flightStep scenarioFlightEnv s).vx * scenarioFlightEnv.time_step := by
      apply mul_nonneg hvx1.le
      show (0:ℝ) ≤ (0.01:ℝ)
      norm_num
    linarith

/-- The last element of a nonempty list (Python `l[-1]`) is a member. -/
lemma getLastD_mem {α : Type} : ∀ (l : List α) (d : α), l ≠ [] → l.getLastD d ∈ l := by
  intro l
  induction l with
  | nil => intro d h; exact absurd rfl h
  | cons a t ih =>
    intro d _
    cases t with
    | nil => simp
    | cons b u =>
      rw [List.getLastD_cons]
      exact List.mem_cons_of_mem a (ih a (by simp))

/-- Every state recorded by the flight loop satisfies any per-step
invariant of the initial state, and its x coordinate is no smaller. -/
lemma flightLoop_inv_general (c : FlightEnv) (P : BallState → Prop)
    (hstep : ∀ s, P s → P (flightStep c s))
    (hx : ∀ s, P s → s.x ≤ (flightStep c s).x) :
    ∀ (n : ℕ) (s : BallState), P s → ∀ t ∈ flightLoop c n s, P t ∧ s.x ≤ t.x := by
  intro n
  induction n with
  | zero => intro s hs t ht; rw [flightLoop_zero] at ht; simp at ht
  | succ n ih =>
    intro s hs t ht
    rw [flightLoop_succ] at ht
    rcases List.mem_cons.mp ht with h1 | h2
    · subst h1
      exact ⟨hs, le_refl _⟩
    · by_cases hz : s.z < 0
      · rw [if_pos hz] at h2; simp at h2
      · rw [if_neg hz] at h2
        obtain ⟨hPt, hxt⟩ := ih (flightStep c s) (hstep s hs) t h2
        exact ⟨hPt, le_trans (hx s hs) hxt⟩

/-- Every state recorded by the ground loop satisfies any per-step
invariant of the initial state, and its x coordinate is no smaller. -/
lemma groundLoop_inv_general (c : GroundEnv) (P : BallState → Prop)
    (hstep : ∀ s, P s → P (groundStep c s))
    (hx : ∀ s, P s → s.x ≤ (groundStep c s).x) :
    ∀ (n : ℕ) (s : BallState), P s → ∀ t ∈ groundLoop c n s, P t ∧ s.x ≤ t.x := by
  intro n
  induction n with
  | zero => intro s hs t ht; rw [groundLoop_zero] at ht; simp at ht
  | succ n ih =>
    intro s hs t ht
    rw [groundLoop_succ] at ht
    rcases List.mem_cons.mp ht with h1 | h2
    · subst h1
      exact ⟨hs, le_refl _⟩
    · by_cases hstop : Real.sqrt (s.vx ^ 2 + s.vy ^ 2) < 0.05 ∧ |s.vz| < 0.05
      · rw [if_pos hstop] at h2; simp at h2
      · rw [if_neg hstop] at h2
        obtain ⟨hPt, hxt⟩ := ih (groundStep c s) (hstep s hs) t h2
        exact ⟨hPt, le_trans (hx s hs) hxt⟩

/-- The ground-phase invariant for the scenario: non-negative downrange
velocity, motion confined to the x-z plane, positive backspin, zero
sidespin. -/
def ScenarioGroundInv (s : BallState) : Prop :=
  0 ≤ s.vx ∧ s.vy = 0 ∧ s.y = 0 ∧ 0 < s.bs ∧ s.ss = 0

set_option maxHeartbeats 2000000 in
/-- One scenario ground step (any branch: bounce, slide, roll, or
mid-bounce flight) preserves the ground invariant and never moves the
ball backwards. -/
lemma scenario_groundStep_inv (s : BallState) (h : ScenarioGroundInv s) :
    ScenarioGroundInv (groundStep scenarioGroundEnv s) ∧
    s.x ≤ (groundStep scenarioGroundEnv s).x := by
  obtain ⟨hvx, hvy, hy, hbs, hss⟩ := h
  have hsh : Real.sqrt (s.vx ^ 2 + s.vy ^ 2) = s.vx := by
    rw [hvy]
    rw [show s.vx ^ 2 + (0:ℝ) ^ 2 = s.vx ^ 2 by ring]
    rw [Real.sqrt_sq_eq_abs, abs_of_nonneg hvx]
  by_cases hz : s.z ≤ 0
  · by_cases hvzb : (0.1:ℝ) < |s.vz|
    · -- bounce branch
      simp only [groundStep, scenarioGroundEnv, if_pos hz, if_pos hvzb]
      have hvx1 : 0 ≤ s.vx * Real.sqrt (1 - 0.3) * (1 - 0.05) :=
        mul_nonneg (mul_nonneg hvx (Real.sqrt_nonneg _)) (by norm_num)
      refine ⟨⟨hvx1, ?_, ?_, ?_, ?_⟩, ?_⟩
      · rw [hvy]; ring
      · rw [hvy, hy]; ring
      · nlinarith [hbs]
      · rw [hss]; ring
      · nlinarith [hvx1]
    · by_cases hsl : s.bs * 0.02135 + 0.1 < Real.sqrt (s.vx ^ 2 + s.vy ^ 2)
      · -- slide branch
        have hvxgt : 0.1 < s.vx := by
          rw [hsh] at hsl
          nlinarith [hbs]
        have hvxne : s.vx ≠ 0 := by linarith
        simp only [groundStep, scenarioGroundEnv, if_pos hz, if_neg hvzb, if_pos hsl]
        rw [hsh, hvy, div_self hvxne, zero_div]
        refine ⟨⟨?_, ?_, ?_, ?_, ?_⟩, ?_⟩
        · nlinarith [hvxgt]
        · ring
        · rw [hy]; ring
        · nlinarith [hbs]
        · rw [hss]; ring
        · nlinarith [hvxgt]
      · -- roll branch
        simp only [groundStep, scenarioGroundEnv, if_pos hz, if_neg hvzb, if_neg hsl]
        rw [hsh, hvy, zero_div]
        by_cases hsp : (1e-9:ℝ) < s.vx
        · rw [if_pos hsp]
          have hvxp : (0:ℝ) < s.vx := lt_trans (by norm_num) hsp
          rw [div_self (ne_of_gt hvxp)]
          norm_num [hy, hss, ScenarioGroundInv]
          refine ⟨⟨?_, hbs⟩, ?_⟩
          · split_ifs with h1
            · exact le_refl 0
            · push_neg at h1
              linarith
          · split_ifs with h1
            · exact le_refl 0
            · push_neg at h1
              nlinarith
        · rw [if_neg hsp]
          norm_num [hy, hss, ScenarioGroundInv]
          exact hbs
  · -- mid-bounce airborne branch
    simp only [groundStep, scenarioGroundEnv, if_neg hz]
    refine ⟨⟨hvx, hvy, ?_, hbs, hss⟩, ?_⟩
    · rw [hy, hvy]; ring
    · nlinarith [mul_nonneg hvx (show (0:ℝ) ≤ 0.01 by norm_num)]

/-- The fairway table entry. -/
lemma surfaceProps_fairway : surfaceProps ("fairway") = (0.35, 0.40) := by
  have h : strLower ("fairway") = "fairway" := by decide
  simp [surfaceProps, h]

/-- Decomposition of the `simulate_shot` result fields in the regular case
(nonempty flight and roll trajectories), in terms of the impact result,
the flight path `fp` and the roll path `rp`. -/
lemma simulate_shot_result (sim : SimState) (p : ShotParams) (impact : ImpactResult)
    (fp rp : List BallState)
    (himp : compute_impact p.club_speed_mps p.club_loft_deg p.club_face_angle_deg
      p.horizontal_offset_cm p.vertical_offset_cm
      (set_gear_ratios sim p.club_type).ball_compression_rating
      (set_gear_ratios sim p.club_type).base_cor
      (set_gear_ratios sim p.club_type).base_smash_factor
      (set_gear_ratios sim p.club_type).toe_gear_rpm_cm
      (set_gear_ratios sim p.club_type).vert_gear_rpm_cm = impact)
    (hfp : simulate_flight impact.launch_speed impact.launch_angle_vert
      impact.launch_angle_horiz impact.backspin_rpm impact.sidespin_rpm
      p.wind_speed_mps p.wind_dir_deg p.temperature_c p.humidity p.elevation_m
      (set_gear_ratios sim p.club_type).ball_mass
      (set_gear_ratios sim p.club_type).ball_radius
      (set_gear_ratios sim p.club_type).drag_base
      (set_gear_ratios sim p.club_type).lift_base
      (set_gear_ratios sim p.club_type).spin_decay_rate
      (set_gear_ratios sim p.club_type).gravity
      (set_gear_ratios sim p.club_type).flight_time_step
      (set_gear_ratios sim p.club_type).flight_max_steps = fp)
    (hne : fp.isEmpty = false)
    (hrp : simulate_bounce_and_roll (flightHandoff fp)
      (set_gear_ratios sim p.club_type).ball_mass
      (set_gear_ratios sim p.club_type).ball_radius
      (set_gear_ratios sim p.club_type).gravity
      (set_gear_ratios sim p.club_type).ground_restitution p.surface_type
      (set_gear_ratios sim p.club_type).ground_friction
      (set_gear_ratios sim p.club_type).spin_friction_factor
      (set_gear_ratios sim p.club_type).roll_time_step
      (set_gear_ratios sim p.club_type).roll_max_steps = rp)
    (hrne : rp.isEmpty = false) :
    (simulate_shot sim p).2.carry_2d_yards
        = Real.sqrt (((flightHandoff fp).x * METERS_TO_YARDS) ^ 2 +
          ((flightHandoff fp).y * METERS_TO_YARDS) ^ 2) ∧
    (simulate_shot sim p).2.total_2d_yards
        = Real.sqrt (((flightHandoff rp).x * METERS_TO_YARDS) ^ 2 +
          ((flightHandoff rp).y * METERS_TO_YARDS) ^ 2) ∧
    (simulate_shot sim p).2.final_spin
        = (rad_s_to_rpm (flightHandoff rp).bs, rad_s_to_rpm (flightHandoff rp).ss) := by
  simp only [simulate_shot, himp, hfp, hrp, hne, hrne, Bool.false_eq_true, if_false]
  exact ⟨trivial, trivial, trivial⟩

/-- The launch state of the scenario flight. -/
noncomputable def scenarioInit : BallState :=
  ⟨0, 0, 0, 60 * Real.cos (Real.pi / 18), 0, 60 * Real.sin (Real.pi / 18),
   3200 * (2 * Real.pi) / 60, 0⟩

/-- The scenario flight reduces to the flight loop from the launch state. -/
lemma scenario_flight_eq :
    simulate_flight 60 10 0 3200 0 0 0 20 0.5 0 0.04593 0.02135 0.2 0.3 0.000005
      9.81 0.01 1000
      = flightLoop scenarioFlightEnv 1000 scenarioInit := by
  have h10 : radians 10 = Real.pi / 18 := by
    simp only [radians]; ring
  have h0 : radians 0 = 0 := by
    simp only [radians]; ring
  simp only [simulate_flight, rpm_to_rad_s, h10, h0, Real.cos_zero, Real.sin_zero,
    mul_one, mul_zero, zero_mul, zero_div, scenarioFlightEnv, scenarioInit]

/-- The launch state satisfies the flight invariant. -/
lemma scenarioInit_inv : ScenarioFlightInv scenarioInit := by
  have hπl : (3.141592:ℝ) < Real.pi := Real.pi_gt_3141592
  have hπu : Real.pi < 3.141593 := Real.pi_lt_3141593
  have hcos : 0 < Real.cos (Real.pi / 18) := by
    apply Real.cos_pos_of_mem_Ioo
    constructor
    · nlinarith [Real.pi_pos]
    · nlinarith [Real.pi_pos]
  refine ⟨rfl, rfl, rfl, ?_, ?_, ?_, ?_⟩
  · show (0:ℝ) < 3200 * (2 * Real.pi) / 60
    positivity
  · show (3200:ℝ) * (2 * Real.pi) / 60 ≤ 335.11
    rw [div_le_iff (by norm_num : (0:ℝ) < 60)]
    nlinarith [hπu]
  · show (0:ℝ) < 60 * Real.cos (Real.pi / 18)
    positivity
  · show Real.sqrt ((60 * Real.cos (Real.pi / 18)) ^ 2 + (0:ℝ) ^ 2 +
      (60 * Real.sin (Real.pi / 18)) ^ 2) ≤ 85
    have hpyth := Real.sin_sq_add_cos_sq (Real.pi / 18)
    have hsum : (60 * Real.cos (Real.pi / 18)) ^ 2 + (0:ℝ) ^ 2 +
        (60 * Real.sin (Real.pi / 18)) ^ 2 = 3600 := by nlinarith [hpyth]
    rw [hsum, show (3600:ℝ) = 60 ^ 2 by norm_num,
      Real.sqrt_sq (by norm_num : (0:ℝ) ≤ 60)]
    norm_num

set_option maxHeartbeats 2000000 in
/-- C7: for the concrete scenario (club speed 40 m/s, loft 10 degrees,
square face, centered strike, no wind, 20 C, humidity 0.5, sea level,
fairway, iron), `simulate_shot` returns final sidespin exactly 0, strictly
positive final backspin, a (finite, real-valued) carry distance strictly
greater than zero, and a total distance at least the carry distance, so
the roll distance is never negative. -/
theorem scenario_shot_properties :
    (simulate_shot simInit
      ⟨40, 10, 0, 0, 0, 0, 0, 20, 0.5, 0, "fairway", "iron"⟩).2.final_spin.2 = 0 ∧
    0 < (simulate_shot simInit
      ⟨40, 10, 0, 0, 0, 0, 0, 20, 0.5, 0, "fairway", "iron"⟩).2.final_spin.1 ∧
    0 < (simulate_shot simInit
      ⟨40, 10, 0, 0, 0, 0, 0, 20, 0.5, 0, "fairway", "iron"⟩).2.carry_2d_yards ∧
    (simulate_shot simInit
      ⟨40, 10, 0, 0, 0, 0, 0, 20, 0.5, 0, "fairway", "iron"⟩).2.carry_2d_yards
      ≤ (simulate_shot simInit
      ⟨40, 10, 0, 0, 0, 0, 0, 20, 0.5, 0, "fairway", "iron"⟩).2.total_2d_yards := by
  set p7 : ShotParams := ⟨40, 10, 0, 0, 0, 0, 0, 20, 0.5, 0, "fairway", "iron"⟩
    with hp7
  have hsg : set_gear_ratios simInit p7.club_type = simInit := by
    show set_gear_ratios simInit ("iron") = simInit
    simp only [set_gear_ratios]
    rw [if_neg (by decide : ¬ strLower ("iron") = "driver"),
        if_pos (by decide : strLower ("iron") = "iron")]
    rfl
  have himp : compute_impact (40:ℝ) 10 0 0 0 1.0 0.83 1.5 120.0 80.0
      = ⟨60, 10, 0, 3200, 0⟩ := by
    simp only [compute_impact]
    norm_num
  -- flight-phase facts
  have hflightinv := flightLoop_inv_general scenarioFlightEnv ScenarioFlightInv
    (fun s hs => (scenario_flightStep_inv s hs).1)
    (fun s hs => (scenario_flightStep_inv s hs).2)
  have hs0z : ¬ scenarioInit.z < 0 := by
    show ¬ (0:ℝ) < 0
    norm_num
  have hcons1 : flightLoop scenarioFlightEnv 1000 scenarioInit
      = scenarioInit ::
        flightLoop scenarioFlightEnv 999 (flightStep scenarioFlightEnv scenarioInit) := by
    rw [show (1000:ℕ) = 999 + 1 from rfl, flightLoop_cons _ _ _ hs0z]
  have hrest_ne :
      flightLoop scenarioFlightEnv 999 (flightStep scenarioFlightEnv scenarioInit)
        ≠ [] := by
    rw [show (999:ℕ) = 998 + 1 from rfl, flightLoop_succ]
    exact List.cons_ne_nil _ _
  have hhd : flightHandoff (flightLoop scenarioFlightEnv 1000 scenarioInit)
      = (flightLoop scenarioFlightEnv 999
          (flightStep scenarioFlightEnv scenarioInit)).getLastD scenarioInit := by
    rw [flightHandoff, hcons1, List.getLastD_cons]
  have hs1 := scenario_flightStep_inv scenarioInit scenarioInit_inv
  have hhdmem := getLastD_mem _ scenarioInit hrest_ne
  have hhdall := hflightinv 999 (flightStep scenarioFlightEnv scenarioInit) hs1.1 _
    hhdmem
  obtain ⟨hhdinv, hhdx⟩ := hhdall
  obtain ⟨hhy, hhvy, hhss, hhbs, hhbsB, hhvx, hhsp⟩ := hhdinv
  have hs1x : 0 < (flightStep scenarioFlightEnv scenarioInit).x := by
    rw [flightStep_x]
    have hvx1 : 0 < (flightStep scenarioFlightEnv scenarioInit).vx :=
      hs1.1.2.2.2.2.2.1
    show 0 < scenarioInit.x + (flightStep scenarioFlightEnv scenarioInit).vx *
      scenarioFlightEnv.time_step
    rw [show scenarioInit.x = 0 from rfl,
        show scenarioFlightEnv.time_step = 0.01 from rfl]
    nlinarith [hvx1]
  have hhdxpos : 0 < ((flightLoop scenarioFlightEnv 999
      (flightStep scenarioFlightEnv scenarioInit)).getLastD scenarioInit).x :=
    lt_of_lt_of_le hs1x hhdx
  -- ground-phase facts
  have hge : groundEnvOf 0.04593 0.02135 9.81 0.001 0.01 ("fairway")
      = scenarioGroundEnv := by
    simp [groundEnvOf, scenarioGroundEnv, surfaceProps_fairway]
  have hrp0 : ∀ st : BallState, simulate_bounce_and_roll st 0.04593 0.02135 9.81
      0.40 ("fairway") 0.35 0.001 0.01 2000 = groundLoop scenarioGroundEnv 2000 st := by
    intro st
    rw [simulate_bounce_and_roll_eq, hge]
  have hginv := groundLoop_inv_general scenarioGroundEnv ScenarioGroundInv
    (fun s hs => (scenario_groundStep_inv s hs).1)
    (fun s hs => (scenario_groundStep_inv s hs).2)
  have hhdg : ScenarioGroundInv ((flightLoop scenarioFlightEnv 999
      (flightStep scenarioFlightEnv scenarioInit)).getLastD scenarioInit) :=
    ⟨hhvx.le, hhvy, hhy, hhbs, hhss⟩
  have hrpne : groundLoop scenarioGroundEnv 2000 ((flightLoop scenarioFlightEnv 999
      (flightStep scenarioFlightEnv scenarioInit)).getLastD scenarioInit) ≠ [] := by
    rw [show (2000:ℕ) = 1999 + 1 from rfl, groundLoop_succ]
    exact List.cons_ne_nil _ _
  have hfinmem := getLastD_mem _ (⟨0, 0, 0, 0, 0, 0, 0, 0⟩ : BallState) hrpne
  have hfin := hginv 2000 _ hhdg _ hfinmem
  obtain ⟨⟨hfvx, hfvy, hfy, hfbs, hfss⟩, hfx⟩ := hfin
  have hfxpos : 0 < ((groundLoop scenarioGroundEnv 2000
      ((flightLoop scenarioFlightEnv 999
        (flightStep scenarioFlightEnv scenarioInit)).getLastD
          scenarioInit)).getLastD ⟨0, 0, 0, 0, 0, 0, 0, 0⟩).x :=
    lt_of_lt_of_le hhdxpos hfx
  -- nonemptiness in Bool form
  have hfpne : (flightLoop scenarioFlightEnv 1000 scenarioInit).isEmpty = false := by
    rw [hcons1]
    rfl
  have hrpne2 : (groundLoop scenarioGroundEnv 2000
      (flightHandoff (flightLoop scenarioFlightEnv 1000 scenarioInit))).isEmpty
      = false := by
    rw [show (2000:ℕ) = 1999 + 1 from rfl, groundLoop_succ]
    rfl
  -- decompose the simulate_shot result
  have hres := simulate_shot_result simInit p7 ⟨60, 10, 0, 3200, 0⟩
    (flightLoop scenarioFlightEnv 1000 scenarioInit)
    (groundLoop scenarioGroundEnv 2000
      (flightHandoff (flightLoop scenarioFlightEnv 1000 scenarioInit)))
    (by rw [hsg, hp7]; simp only [simInit]; exact himp)
    (by rw [hsg, hp7]; simp only [simInit]; exact scenario_flight_eq)
    hfpne
    (by rw [hsg, hp7]; simp only [simInit]; exact hrp0 _)
    hrpne2
  rw [hhd] at hres
  simp only [flightHandoff] at hres
  obtain ⟨hcarry, htotal, hspin⟩ := hres
  have hMY : (0:ℝ) < METERS_TO_YARDS := by
    rw [METERS_TO_YARDS]
    norm_num
  -- evaluate carry and total through the plane confinement
  have hcarry2 : (simulate_shot simInit p7).2.carry_2d_yards
      = ((flightLoop scenarioFlightEnv 999
          (flightStep scenarioFlightEnv scenarioInit)).getLastD scenarioInit).x *
        METERS_TO_YARDS := by
    rw [hcarry, hhy]
    rw [show ((0:ℝ) * METERS_TO_YARDS) ^ 2 = 0 by ring, add_zero]
    rw [Real.sqrt_sq_eq_abs]
    exact abs_of_pos (mul_pos hhdxpos hMY)
  have htotal2 : (simulate_shot simInit p7).2.total_2d_yards
      = ((groundLoop scenarioGroundEnv 2000
          ((flightLoop scenarioFlightEnv 999
            (flightStep scenarioFlightEnv scenarioInit)).getLastD
              scenarioInit)).getLastD ⟨0, 0, 0, 0, 0, 0, 0, 0⟩).x *
        METERS_TO_YARDS := by
    rw [htotal, hfy]
    rw [show ((0:ℝ) * METERS_TO_YARDS) ^ 2 = 0 by ring, add_zero]
    rw [Real.sqrt_sq_eq_abs]
    exact abs_of_pos (mul_pos hfxpos hMY)
  refine ⟨?_, ?_, ?_, ?_⟩
  · rw [hspin]
    show rad_s_to_rpm ((groundLoop scenarioGroundEnv 2000
      ((flightLoop scenarioFlightEnv 999
        (flightStep scenarioFlightEnv scenarioInit)).getLastD
          scenarioInit)).getLastD ⟨0, 0, 0, 0, 0, 0, 0, 0⟩).ss = 0
    rw [hfss, rad_s_to_rpm]
    ring
  · rw [hspin]
    show 0 < rad_s_to_rpm ((groundLoop scenarioGroundEnv 2000
      ((flightLoop scenarioFlightEnv 999
        (flightStep scenarioFlightEnv scenarioInit)).getLastD
          scenarioInit)).getLastD ⟨0, 0, 0, 0, 0, 0, 0, 0⟩).bs
    rw [rad_s_to_rpm]
    apply div_pos (mul_pos hfbs (by norm_num))
    positivity
  · rw [hcarry2]
    exact mul_pos hhdxpos hMY
  · rw [hcarry2, htotal2]
    exact mul_le_mul_of_nonneg_right hfx hMY.le
